import Mathlib

/-!
Verification of the Package Identity & Tracking Reconciliation subsystem of
the `rauri` AUR helper, against its specification.

The development is a shallow embedding of the Rust sources:

* `src/tracker.rs`   — the Tracking Store (`PackageTracker`);
* `src/aur.rs`       — the Artifact Name Resolver (`Aur::build_and_install`);
* `src/package.rs`   — the Reconciliation Engine (`PackageManager`):
  `cleanup_tracking`, `update_aur_only`, `remove`, plus the equality-based
  version comparator inlined at its two call sites.

External collaborators (the pacman database, the AUR metadata service, the
build tool, the filesystem) are modelled as explicit function parameters:

* a database presence query `pacman -Q name` is a `String → Option Bool`
  (`none` = the command could not be run at all, an I/O error;
  `some b` = the command ran and `b` tells whether its exit status was
  success, i.e. whether the package is installed);
* a database version query is a `String → Option String` returning the raw
  stdout of a successful `pacman -Q name` (`none` = error or not installed);
* the AUR info endpoint is a `String → Option String` returning the upstream
  version (`none` = request failed or package unknown);
* the build pipeline (config load + git clone + makepkg) of an update is an
  `Except Unit String` value per package, returning the resolved name.

Rust `HashSet<String>` values are modelled as `Finset String`; where the code
iterates a `HashSet` in unspecified order and the order matters (the fuzzy
match loop of `remove`), the model takes an explicit enumeration `List String`
so that order-dependence is visible.  Strings occurring here are ASCII, so
Rust's byte-based `contains` / `ends_with` / `split_whitespace` coincide with
the character-list operations used below.
-/

/-! ## Tracking Store (`src/tracker.rs`)

The on-disk file `packages.toml` holds `PackageData { packages: Vec<String> }`.
The TOML serializer/parser pair is an external collaborator assumed faithful,
so a file is modelled as: absent, unreadable-or-unparsable, or a list of
entries.  `save` models `fs::write` as succeeding; `load` surfaces the
read/parse failure exactly as `PackageTracker::load` does (`Result`). -/

inductive StoreFile where
  | absent : StoreFile
  | corrupt : StoreFile
  | good : List String → StoreFile
deriving DecidableEq

namespace PackageTracker

/-- Embedding of `PackageTracker::load`: absent file yields the empty set
(`Ok(HashSet::new())`), an unreadable or unparsable file yields an error,
otherwise the entry list is collected into a `HashSet`. -/
def load : StoreFile → Except Unit (Finset String)
  | StoreFile.absent => Except.ok ∅
  | StoreFile.corrupt => Except.error ()
  | StoreFile.good entries => Except.ok entries.toFinset

/-- Embedding of `PackageTracker::save`: the set is collected into a `Vec`,
sorted, and written as the whole file content (full replace). -/
def save (packages : Finset String) : StoreFile :=
  StoreFile.good (packages.sort (· ≤ ·))

/-- Embedding of `PackageTracker::add`: `load().unwrap_or_default()`, insert,
save.  The pair returned is (result of the call, file afterwards); the
result is `Except.ok ()` because `save` is modelled as succeeding. -/
def add (package_name : String) (file : StoreFile) :
    Except Unit Unit × StoreFile :=
  let packages := (load file).toOption.getD ∅
  (Except.ok (), save (insert package_name packages))

/-- Embedding of `PackageTracker::remove`: `load().unwrap_or_default()`,
erase, save. -/
def remove (package_name : String) (file : StoreFile) :
    Except Unit Unit × StoreFile :=
  let packages := (load file).toOption.getD ∅
  (Except.ok (), save (packages.erase package_name))

end PackageTracker

/-- Sorting a finset and collecting the list back loses and adds nothing. -/
lemma sort_toFinset (S : Finset String) : (S.sort (· ≤ ·)).toFinset = S := by
  ext a
  simp [List.mem_toFinset, Finset.mem_sort]

/-- Saving a set and loading it back returns exactly that set. -/
lemma load_save (S : Finset String) :
    PackageTracker.load (PackageTracker.save S) = Except.ok S := by
  simp [PackageTracker.load, PackageTracker.save, sort_toFinset]

/-- C5: for every finite set of name strings S, saving S to the Tracking
Store and then loading returns exactly S — the sorted-list on-disk
representation loses no element and adds none, independent of insertion
order (the argument is a `Finset`, so no insertion order exists at all). -/
theorem tracker_roundtrip (S : Finset String) :
    PackageTracker.load (PackageTracker.save S) = Except.ok S :=
  load_save S

/-- C6: Tracking Store add and remove are idempotent: starting from any
persisted set S and any name x, add(x) twice followed by remove(x) once
succeeds at every step (in particular the second add re-adds a name already
present, and each operation is not an error), and the persisted set after
the remove — which load recovers — does not contain x.  Moreover removing
an absent name is not an error either: a further remove(x) on that state,
from which x is certainly absent, also succeeds and leaves x absent. -/
theorem tracker_add_add_remove_idempotent (S : Finset String) (x : String) :
    (PackageTracker.add x (PackageTracker.save S)).1 = Except.ok () ∧
    (PackageTracker.add x (PackageTracker.add x (PackageTracker.save S)).2).1
      = Except.ok () ∧
    (PackageTracker.remove x
      (PackageTracker.add x (PackageTracker.add x (PackageTracker.save S)).2).2).1
      = Except.ok () ∧
    (∃ T, PackageTracker.load
        (PackageTracker.remove x
          (PackageTracker.add x
            (PackageTracker.add x (PackageTracker.save S)).2).2).2
        = Except.ok T ∧ x ∉ T) ∧
    (PackageTracker.remove x
      (PackageTracker.remove x
        (PackageTracker.add x
          (PackageTracker.add x (PackageTracker.save S)).2).2).2).1
      = Except.ok () ∧
    ∃ T, PackageTracker.load
        (PackageTracker.remove x
          (PackageTracker.remove x
            (PackageTracker.add x
              (PackageTracker.add x (PackageTracker.save S)).2).2).2).2
        = Except.ok T ∧ x ∉ T := by
  refine ⟨rfl, rfl, rfl,
    ⟨(insert x (insert x S)).erase x, ?_, Finset.not_mem_erase x _⟩, rfl,
    ⟨((insert x (insert x S)).erase x).erase x, ?_,
      Finset.not_mem_erase x _⟩⟩
  · simp [PackageTracker.add, PackageTracker.remove, load_save,
      Except.toOption]
  · simp [PackageTracker.add, PackageTracker.remove, load_save,
      Except.toOption]

/-- C10: if the Tracking Store file exists but fails to read or parse,
add(x) nevertheless returns success, and the persisted store afterwards
contains exactly {x}: the previously tracked names are silently discarded,
because `add` treats the load failure as an empty set before rewriting the
whole file. -/
theorem tracker_add_on_corrupt_store (x : String) :
    (PackageTracker.add x StoreFile.corrupt).1 = Except.ok () ∧
    PackageTracker.load (PackageTracker.add x StoreFile.corrupt).2
      = Except.ok {x} := by
  constructor
  · rfl
  · simp [PackageTracker.add, PackageTracker.load, PackageTracker.save,
      Except.toOption, sort_toFinset]

/-! ## String helpers shared by the embedded operations

Rust `str::contains` (substring search), `str::ends_with` and
`str::split_whitespace` over the ASCII strings this program handles,
implemented on character lists so that every concrete instance evaluates
inside the kernel. -/

/-- Helper for substring containment: does `needle` occur as a contiguous
run inside the (remaining) haystack? -/
def substrAux (needle : List Char) : List Char → Bool
  | [] => needle.isEmpty
  | c :: rest => needle.isPrefixOf (c :: rest) || substrAux needle rest

/-- Embedding of Rust `haystack.contains(needle)` (substring containment). -/
def strContains (haystack needle : String) : Bool :=
  substrAux needle.data haystack.data

/-- Embedding of Rust `s.ends_with(suffix)`. -/
def endsWithStr (s suffix : String) : Bool :=
  suffix.data.isSuffixOf s.data

/-- Helper for `splitWhitespaceStr`: `cur` is the current word, reversed. -/
def wordsAux (cur : List Char) : List Char → List String
  | [] => if cur.isEmpty then [] else [String.mk cur.reverse]
  | c :: rest =>
      if c.isWhitespace then
        if cur.isEmpty then wordsAux [] rest
        else String.mk cur.reverse :: wordsAux [] rest
      else wordsAux (c :: cur) rest

/-- Embedding of Rust `s.trim().split_whitespace()`: maximal runs of
non-whitespace characters, in order; leading/trailing whitespace yields
nothing, so the `trim()` is absorbed. -/
def splitWhitespaceStr (s : String) : List String :=
  wordsAux [] s.data

/-! ## Version Comparator (§4.4)

The comparison is inlined in the source at its two call sites:
`installed_version != aur_pkg.version` (`package.rs`, `update_aur_only`) and
`clean_version != aur_pkg.version` (`package.rs`, `list_installed`). -/

/-- Embedding of the staleness test used at both call sites: plain string
inequality of the raw version strings. -/
def is_outdated (installed upstream : String) : Bool :=
  installed != upstream

/-- Embedding of the installed-version extraction of `update_aur_only`:
`stdout.trim().split_whitespace().nth(1).unwrap_or("")` applied to the raw
output of a successful `pacman -Q name` (which prints `name version`). -/
def parseInstalledVersion (stdout : String) : String :=
  (splitWhitespaceStr stdout).getD 1 ""

/-- C7: the staleness test is plain string equality: is_outdated(v, v) is
false for every version string v, and is_outdated(v1, v2) is true for every
pair of distinct version strings v1 v2 — including downgrades, since no
ordering of versions is consulted at all. -/
theorem is_outdated_iff_ne :
    (∀ v : String, is_outdated v v = false) ∧
    (∀ v1 v2 : String, v1 ≠ v2 → is_outdated v1 v2 = true) := by
  constructor
  · intro v
    simp [is_outdated]
  · intro v1 v2 h
    simp [is_outdated, h]

/-- Witness for C7 at concrete versions, including a downgrade pair. -/
theorem is_outdated_iff_ne_witness :
    is_outdated "1.0" "1.0" = false ∧ is_outdated "2.0" "1.9" = true :=
  ⟨is_outdated_iff_ne.1 "1.0",
   is_outdated_iff_ne.2 "2.0" "1.9" (by decide)⟩

/-! ## Artifact Name Resolver (`src/aur.rs`, `Aur::build_and_install`)

After `makepkg -si` succeeds, the function scans the build directory for
`*.pkg.tar.zst` files and asks `pacman -Qp` for each one's embedded package
name, taking the first name that comes back and falling back to the
requested name.  A directory entry is modelled by its file name plus the
outcome of that query: `qpName = some n` when the query ran, succeeded and
its stdout's first word was `n`; `none` when the query could not run, failed,
or printed no word (all of which make the loop continue in the source).
The source's `extension() == "zst"` test is implied by its
`ends_with(".pkg.tar.zst")` test and is therefore folded into the latter. -/

structure BuiltArtifact where
  fileName : String
  qpName : Option String
deriving DecidableEq

/-- Embedding of the name-resolution phase of `Aur::build_and_install`
(lines 103–134), given the build directory listing in iteration order:
the first `*.pkg.tar.zst` entry whose metadata query produced a name wins
(`break`), and if no entry does, the requested name is returned. -/
def build_and_install_name (requested_package : String)
    (entries : List BuiltArtifact) : String :=
  match entries.find? (fun e =>
      endsWithStr e.fileName ".pkg.tar.zst" && e.qpName.isSome) with
  | some e => e.qpName.getD requested_package
  | none => requested_package

/-- C1 (failing input): a build directory whose iteration order lists the
"-debug" companion artifact before the primary artifact.  Both artifacts
are well-formed and both metadata queries succeed, yet the resolved name is
"foo-debug", not "foo": `build_and_install` has no "-debug" exclusion (in
contrast to `list_installed`, which filters `-debug.pkg.tar.zst` files), so
the debug name does override the primary resolved name when the directory
iteration happens to yield it first. -/
theorem build_and_install_debug_overrides :
    build_and_install_name "foo"
      [⟨"foo-debug-1.0-1-x86_64.pkg.tar.zst", some "foo-debug"⟩,
       ⟨"foo-1.0-1-x86_64.pkg.tar.zst", some "foo"⟩] = "foo-debug" := by
  decide

/-! ## Reconciliation Engine: cleanup (`src/package.rs`,
`PackageManager::cleanup_tracking`)

`cleanup_tracking` loads the tracked set (`unwrap_or_default`), queries
`pacman -Q` for each name, collects every name whose query ran and reported
not-installed, and removes each collected name from the Tracking Store via
`PackageTracker::remove` (a per-name load/save; failures only warn).  It
returns `Ok(())` on every path.  The store file operations are modelled as
succeeding, so the store is carried as the tracked `Finset` directly; the
removal loop is modelled as a left fold of erasures over the collected
names (the loop's order; any order gives the same set). -/

/-- Embedding of `PackageManager::cleanup_tracking`, parametrised by the
tracked set and the database presence query.  Returns the call's result and
the Tracking Store contents afterwards. -/
def cleanup_tracking (tracked : Finset String) (db : String → Option Bool) :
    Except Unit Unit × Finset String :=
  if tracked = ∅ then (Except.ok (), tracked)
  else
    let packages_to_remove := tracked.filter (fun n => db n = some false)
    (Except.ok (),
      (packages_to_remove.sort (· ≤ ·)).foldl (fun s n => s.erase n) tracked)

/-- Erasing a list of names never introduces a member. -/
lemma not_mem_foldl_erase_of_not_mem (l : List String) (init : Finset String)
    (a : String) (h : a ∉ init) :
    a ∉ l.foldl (fun s n => s.erase n) init := by
  induction l generalizing init with
  | nil => exact h
  | cons b l ih =>
      exact ih (init.erase b) fun hmem => h (Finset.erase_subset b init hmem)

/-- Every name in the erased list is absent from the fold's result. -/
lemma not_mem_foldl_erase_of_mem (l : List String) (init : Finset String)
    (a : String) (h : a ∈ l) :
    a ∉ l.foldl (fun s n => s.erase n) init := by
  induction l generalizing init with
  | nil => cases h
  | cons b l ih =>
      rcases List.mem_cons.mp h with hb | hl
      · subst hb
        exact not_mem_foldl_erase_of_not_mem l (init.erase a) a
          (Finset.not_mem_erase a init)
      · exact ih (init.erase b) hl

/-- C3: after cleanup_tracking, every name tracked before the call whose
database presence query ran and reported not-installed is absent from the
Tracking Store, and the call returns success for every database behaviour —
in particular even when the presence query for a different tracked name
fails with an I/O error (`db n = none`), which only exempts that name from
pruning. -/
theorem cleanup_prunes_uninstalled (tracked : Finset String)
    (db : String → Option Bool) :
    (cleanup_tracking tracked db).1 = Except.ok () ∧
    ∀ n ∈ tracked, db n = some false →
      n ∉ (cleanup_tracking tracked db).2 := by
  unfold cleanup_tracking
  by_cases hemp : tracked = ∅
  · subst hemp
    simp
  · rw [if_neg hemp]
    refine ⟨rfl, ?_⟩
    intro n hn hdb
    apply not_mem_foldl_erase_of_mem
    rw [Finset.mem_sort]
    exact Finset.mem_filter.mpr ⟨hn, hdb⟩

/-- Witness for C3: the tracked set contains "gone" (query succeeded,
not installed) and "flaky" (query raised an I/O error); the call succeeds
and "gone" is pruned. -/
theorem cleanup_prunes_uninstalled_witness :
    (cleanup_tracking {"gone", "flaky"}
        (fun n => if n = "gone" then some false else none)).1
      = Except.ok () ∧
    "gone" ∉ (cleanup_tracking {"gone", "flaky"}
        (fun n => if n = "gone" then some false else none)).2 :=
  ⟨(cleanup_prunes_uninstalled {"gone", "flaky"}
      (fun n => if n = "gone" then some false else none)).1,
   (cleanup_prunes_uninstalled {"gone", "flaky"}
      (fun n => if n = "gone" then some false else none)).2
     "gone" (by decide) (by decide)⟩

/-! ## Reconciliation Engine: update planning (`src/package.rs`,
`PackageManager::update_aur_only`)

`update_aur_only` first runs `cleanup_tracking`, reloads the tracked set
(`unwrap_or_default` again), folds every tracked name to its base name by
stripping a trailing "-debug", de-duplicates the bases in a `HashSet`, and
then, per base name: a failed or unsuccessful `pacman -Q` skips the package
with a warning; a failed AUR info request skips it with a warning; otherwise
the installed version (second whitespace-separated word of the `pacman -Q`
stdout, or "" if missing) is compared with the upstream version by `!=` and
an update is attempted when they differ.  Inside the update branch the
config load, clone and build are chained with `?`, so a failure there is
fatal to the run; the tracker re-add only warns. -/

/-- Embedding of the base-name computation of `update_aur_only`:
`if pkg.ends_with("-debug") { pkg.strip_suffix("-debug").unwrap_or(pkg) }
else { pkg }`.  Stripping the suffix drops its 6 characters. -/
def stripDebug (pkg : String) : String :=
  if endsWithStr pkg "-debug" then
    String.mk (pkg.data.take (pkg.data.length - 6))
  else pkg

/-- Embedding of one record of the per-base-package update decision of
`update_aur_only` (spec §4.3, `UpdatePlan`). -/
structure UpdatePlan where
  base_name : String
  installed_version : String
  upstream_version : String
  needs_update : Bool
deriving DecidableEq

/-- Embedding of the planning phase of `update_aur_only`: the tracked names
are reduced to de-duplicated base names, and each base name with a
successful database query and a successful AUR info request contributes its
update decision; bases that are not installed or whose AUR lookup failed are
skipped (warnings in the source) and contribute no entry. -/
def plan_updates (tracked : Finset String) (dbQ : String → Option String)
    (aur : String → Option String) : Finset UpdatePlan :=
  (tracked.image stripDebug).biUnion (fun base =>
    match dbQ base with
    | some stdout =>
        match aur base with
        | some upstream =>
            {⟨base, parseInstalledVersion stdout, upstream,
              is_outdated (parseInstalledVersion stdout) upstream⟩}
        | none => ∅
    | none => ∅)

/-- C8: for the tracked set {"foo-debug", "foo"} with "foo" installed at
version 1.0 (raw query output "foo 1.0") and upstream reporting 1.1, update
planning yields exactly one entry — base name "foo", installed 1.0,
upstream 1.1, needs_update true — and "foo-debug" produces no separate
entry: both tracked names collapse to the single base name "foo". -/
theorem plan_updates_debug_grouped :
    plan_updates {"foo-debug", "foo"}
      (fun n => if n = "foo" then some "foo 1.0" else none)
      (fun n => if n = "foo" then some "1.1" else none)
      = {⟨"foo", "1.0", "1.1", true⟩} := by
  rfl

/-- Embedding of the run-level control flow of `update_aur_only`,
parametrised by the Tracking Store load outcome (used by `cleanup_tracking`
and by the body alike: a corrupt file makes both loads fail, and both sites
call `unwrap_or_default()`), the database query, the AUR info request, and
the per-package update pipeline `build` (config load + clone + makepkg +
install, chained with `?` in the source, so its error aborts the run).
`tracked` is the load outcome's entry list in iteration order.  Returns the
list of base packages for which an update was performed. -/
def update_aur_only (loadResult : Except Unit (List String))
    (dbQ : String → Option String) (aur : String → Option String)
    (build : String → Except Unit String) : Except Unit (List String) :=
  let tracked := match loadResult with
    | Except.ok l => l
    | Except.error _ => []
  let base_packages := (tracked.map stripDebug).eraseDups
  if base_packages.isEmpty then Except.ok []
  else
    base_packages.foldlM (fun updated package_name =>
      match dbQ package_name with
      | some stdout =>
          match aur package_name with
          | some upstream =>
              if is_outdated (parseInstalledVersion stdout) upstream then
                match build package_name with
                | Except.ok _actual => Except.ok (updated ++ [package_name])
                | Except.error e => Except.error e
              else Except.ok updated
          | none => Except.ok updated
      | none => Except.ok updated) []

/-- C4 (counterexample): with the Tracking Store file unreadable or
unparsable (load fails), an update run does not fail: it returns success
having updated nothing — even against a database and AUR reporting an
update available for every name and a build pipeline that would fail.
The claim says this situation is a fatal run-level error; the code calls
`load().unwrap_or_default()` at every site, so the failure is silently
turned into an empty tracked set. -/
theorem update_run_survives_corrupt_store :
    update_aur_only (Except.error ())
      (fun _ => some "pkg 1.0") (fun _ => some "2.0")
      (fun _ => Except.error ()) = Except.ok [] ∧
    update_aur_only (Except.error ())
      (fun _ => some "pkg 1.0") (fun _ => some "2.0")
      (fun _ => Except.error ()) ≠ Except.error () := by
  constructor
  · rfl
  · intro h
    cases h

/-- C4 (amended): if the Tracking Store cannot be read or parsed, the
update run proceeds as if nothing were tracked and completes successfully
with an empty update list, whatever the database, the AUR and the build
pipeline do; the next invocation retries from scratch.  (The source never
propagates a Tracking Store load error: every call site uses
`unwrap_or_default()` or `if let Ok(..)`.) -/
theorem update_run_treats_corrupt_store_as_empty
    (dbQ : String → Option String) (aur : String → Option String)
    (build : String → Except Unit String) :
    update_aur_only (Except.error ()) dbQ aur build = Except.ok [] := by
  rfl

/-! ## Reconciliation Engine: removal (`src/package.rs`,
`PackageManager::remove`)

The pipeline: an empty requested name prints an error and returns `Ok(())`
without touching anything; otherwise the exact tier (`pacman -Q requested`),
then the tracked-set fuzzy tier (first tracked name whose query succeeds and
which bidirectionally substring-matches the request, in tracked-set
iteration order; a failed Tracking Store load skips the tier), then a final
`pacman -Q` on the chosen name that bails with "Package .. is not installed"
when it does not confirm presence (a query error also bails).  Only then
`sudo pacman -R` runs (its failure bails); the `<name>-debug` companion is
queried and, when present, removed best-effort; finally the requested and
resolved names (plus tracked names equal to one of them, which add nothing)
are each removed from the Tracking Store.  The download-directory folder
cleanup and the printed messages have no bearing on the claims and are not
modelled. -/

inductive RemoveErr where
  | packageNotInstalled : RemoveErr
  | removalFailed : RemoveErr
deriving DecidableEq

/-- Outcome of a removal that went through: the database name removed, did
the "-debug" companion removal get scheduled, and the Tracking Store
contents afterwards. -/
structure RemoveOutcome where
  primary : String
  debugRemoved : Bool
  finalStore : Finset String
deriving DecidableEq

/-- Embedding of the fuzzy tier's per-candidate test: the candidate's
`pacman -Q` ran and succeeded, and candidate and request contain one
another as substrings in at least one direction. -/
def fuzzyMatches (db : String → Option Bool) (requested p : String) : Bool :=
  decide (db p = some true) &&
    (strContains p requested || strContains requested p)

/-- Embedding of the identity-resolution tiers of `PackageManager::remove`
(`actual_package_name` after the `match check_exact`): exact tier first,
then the first fuzzy-matching tracked name in iteration order, defaulting
to the requested name. -/
def resolve_for_removal (requested : String) (db : String → Option Bool)
    (trackedLoad : Option (List String)) : String :=
  match db requested with
  | some true => requested
  | _ =>
      match trackedLoad with
      | some tracked =>
          match tracked.find? (fuzzyMatches db requested) with
          | some p => p
          | none => requested
      | none => requested

/-- Embedding of `PackageManager::remove`, parametrised by the database
query, the Tracking Store load outcome (`none` = load failed, skipping the
fuzzy tier) with its iteration order, the store contents seen by the
untracking phase, and the `sudo pacman -R` outcome.  `Except.ok none`
models the empty-name early return (`Ok(())` after printing an error);
`Except.ok (some _)` models a completed removal. -/
def PackageManager.remove (requested : String) (db : String → Option Bool)
    (trackedLoad : Option (List String)) (store : Finset String)
    (pacmanRemoveOk : String → Bool) :
    Except RemoveErr (Option RemoveOutcome) :=
  if requested = "" then Except.ok none
  else
    let actual := resolve_for_removal requested db trackedLoad
    match db actual with
    | some true =>
        if pacmanRemoveOk actual then
          Except.ok (some
            ⟨actual,
             decide (db (actual ++ "-debug") = some true),
             (store.erase actual).erase requested⟩)
        else Except.error RemoveErr.removalFailed
    | _ => Except.error RemoveErr.packageNotInstalled

/-- Helper: when no tracked candidate fuzzy-matches (or the Tracking Store
load failed), resolution returns the requested name itself. -/
lemma resolve_for_removal_default (requested : String)
    (db : String → Option Bool) (trackedLoad : Option (List String))
    (h2 : ∀ tracked, trackedLoad = some tracked →
      ∀ p ∈ tracked, fuzzyMatches db requested p = false) :
    resolve_for_removal requested db trackedLoad = requested := by
  unfold resolve_for_removal
  split
  · rfl
  · cases trackedLoad with
    | none => rfl
    | some tracked =>
        have hfind : tracked.find? (fuzzyMatches db requested) = none :=
          List.find?_eq_none.mpr fun x hx => by
            simp [h2 tracked rfl x hx]
        simp [hfind]

/-- C2 (amended: for every nonempty requested name): removal only proceeds
against a name the final database check confirms installed — whenever the
call completes a removal, the removed primary name satisfies the presence
query — and when neither the exact tier nor the fuzzy tier yields a
database-confirmed name, the call fails with the package-not-installed
error instead of attempting removal.  (The empty requested name is the one
exception: the source prints an error and returns Ok(()) without removing
anything, see the counterexample.) -/
theorem remove_confirms_installed (requested : String)
    (db : String → Option Bool) (trackedLoad : Option (List String))
    (store : Finset String) (pacmanRemoveOk : String → Bool)
    (hne : requested ≠ "") :
    (∀ o : RemoveOutcome,
      PackageManager.remove requested db trackedLoad store pacmanRemoveOk
        = Except.ok (some o) → db o.primary = some true) ∧
    (db requested ≠ some true →
      (∀ tracked, trackedLoad = some tracked →
        ∀ p ∈ tracked, fuzzyMatches db requested p = false) →
      PackageManager.remove requested db trackedLoad store pacmanRemoveOk
        = Except.error RemoveErr.packageNotInstalled) := by
  constructor
  · intro o h
    unfold PackageManager.remove at h
    rw [if_neg hne] at h
    simp only [] at h
    split at h
    · next hq =>
        split at h
        · simp only [Except.ok.injEq, Option.some.injEq] at h
          subst h
          exact hq
        · exact Except.noConfusion h
    · exact Except.noConfusion h
  · intro h1 h2
    unfold PackageManager.remove
    rw [if_neg hne, resolve_for_removal_default requested db trackedLoad h2]
    simp only []

/-- Witness for C2 (amended): a nonempty request that neither tier can
confirm ("foo" not installed, sole tracked name "bar" not installed) fails
with the package-not-installed error. -/
theorem remove_confirms_installed_witness :
    PackageManager.remove "foo" (fun _ => some false) (some ["bar"]) ∅
      (fun _ => true) = Except.error RemoveErr.packageNotInstalled :=
  (remove_confirms_installed "foo" (fun _ => some false) (some ["bar"]) ∅
      (fun _ => true) (by decide)).2 (by decide)
    (by
      intro tracked htr p hp
      injection htr with h3
      subst h3
      rw [List.mem_singleton] at hp
      subst hp
      rfl)

/-- C2 (counterexample): for the empty requested name — not installed, with
nothing tracked that could match — the source returns Ok(()) after printing
an error instead of failing with the package-not-installed error, so the
claim's "for every requested name" is too strong. -/
theorem remove_empty_name_returns_ok :
    PackageManager.remove "" (fun _ => some false) (some []) ∅
      (fun _ => true) = Except.ok none ∧
    PackageManager.remove "" (fun _ => some false) (some []) ∅
      (fun _ => true) ≠ Except.error RemoveErr.packageNotInstalled := by
  constructor
  · rfl
  · intro h
    cases h

/-- C9: requesting removal of "foo" when "foo" is not installed exactly but
the tracked, installed "foo-git" contains "foo" as a substring resolves the
identity to "foo-git"; its installed "foo-git-debug" companion is scheduled
for removal too; and afterwards both "foo" and "foo-git" are absent from
the Tracking Store. -/
theorem remove_fuzzy_tier_scenario :
    ∃ o : RemoveOutcome,
      PackageManager.remove "foo"
        (fun n => if n = "foo-git" then some true
          else if n = "foo-git-debug" then some true else some false)
        (some ["foo-git"]) {"foo-git"} (fun _ => true)
        = Except.ok (some o) ∧
      o.primary = "foo-git" ∧ o.debugRemoved = true ∧
      "foo" ∉ o.finalStore ∧ "foo-git" ∉ o.finalStore := by
  refine ⟨⟨"foo-git", true, ∅⟩, ?_, rfl, rfl, ?_, ?_⟩
  · rfl
  · simp
  · simp
